import Mathlib

/-!
Verification of the call-recorder admin console core logic: the client-side
filter/pagination state machine of the Call Logs page and the role-based
visibility rules of the sidebar, routes, and admin management page.

Definitions are shallow embeddings of the TypeScript source:
  - src/pages/CallLogs.tsx  (filter state, applyFilters, clearFilters,
    handleSort, pager buttons, URL-preset effect, shouldShowRecordings)
  - the sidebar component   (allNavItems / allAdminNavItems and the
    role-based filter over them)
  - src/App.tsx             (ProtectedRoute)
  - src/pages/Admins.tsx    (handleDelete and the delete-button guard)

JavaScript object semantics that matter here are modelled explicitly:
a property of an object literal can be missing, present with value
undefined, or present with a value; object spread copies present keys
(including undefined-valued ones) over the target.
-/

/-- A JavaScript object property: missing, present-but-undefined, or a value.
The distinction between missing and undefined matters under object spread. -/
inductive JSField (α : Type) where
  | missing : JSField α
  | undef : JSField α
  | val : α → JSField α
deriving Repr, DecidableEq

namespace JSField

/-- Reading a property: both missing and undefined read as undefined. -/
def read {α : Type} : JSField α → Option α
  | .val a => some a
  | _ => none

/-- Object spread `\x7b ...target, ...source \x7d` at one key: a present key of the
source (even undefined-valued) overrides the target, a missing key does not. -/
def ov {α : Type} (cur : Option α) : JSField α → Option α
  | .missing => cur
  | .undef => none
  | .val a => some a

/-- JS truthiness of a read string property: a nonempty string. -/
def truthyStr : JSField String → Bool
  | .val s => s ≠ ""
  | _ => false

/-- JS truthiness of a read numeric property: a nonzero number. -/
def truthyInt : JSField Int → Bool
  | .val n => n ≠ 0
  | _ => false

/-- Wrapping an optional value as an object-literal property: the key is
present, with undefined when the value is absent. -/
def ofOpt {α : Type} : Option α → JSField α
  | some a => .val a
  | none => .undef

end JSField

/-- JS truthiness of an optional string (for example a URL search parameter,
which is null when absent): present and nonempty. -/
def jsTruthyOptStr : Option String → Bool
  | some s => s ≠ ""
  | none => false

/-- The leading run of decimal digits of a character list. -/
def leadingDigits : List Char → List Char
  | [] => []
  | c :: cs => if c.isDigit then c :: leadingDigits cs else []

/-- Digit characters to the number they denote. -/
def digitsToNat (l : List Char) : Nat :=
  l.foldl (fun acc c => acc * 10 + (c.toNat - 48)) 0

/-- JavaScript parseInt on the strings this UI produces: an optional sign
followed by digits; none models NaN. -/
def parseIntJS (s : String) : Option Int :=
  match s.toList with
  | '-' :: cs =>
    match leadingDigits cs with
    | [] => none
    | ds => some (-(digitsToNat ds : Int))
  | '+' :: cs =>
    match leadingDigits cs with
    | [] => none
    | ds => some (digitsToNat ds : Int)
  | cs =>
    match leadingDigits cs with
    | [] => none
    | ds => some (digitsToNat ds : Int)

/-- The authenticated admin (src/types: Admin), restricted to the fields the
embedded logic reads. admin_role is one of the strings super_admin, manager,
trainee; branch_id and assigned_user_ids may be absent. -/
structure Admin where
  id : Int
  admin_role : String
  branch_id : Option Int := none
  assigned_user_ids : Option (List Int) := none
deriving Repr, DecidableEq

/-- Whether the (possibly absent) session admin has the given role. -/
def roleIs (admin : Option Admin) (r : String) : Bool :=
  match admin with
  | some a => a.admin_role = r
  | none => false

/-- The applied filter set (src/types: CallLogFilters). Absent and
undefined-valued keys are conflated, which is sound because the code only
ever reads these keys or spreads this object as a target. -/
structure CallLogFilters where
  page : Option Nat := none
  per_page : Option Nat := none
  call_type : Option String := none
  date_from : Option String := none
  date_to : Option String := none
  time_from : Option String := none
  time_to : Option String := none
  duration_min : Option Int := none
  duration_max : Option Int := none
  user_id : Option Int := none
  branch_id : Option Int := none
  number : Option String := none
  search : Option String := none
  sort_by : Option String := none
  sort_order : Option String := none
deriving Repr, DecidableEq

/-- The pending (staged) filter set. It is spread as a source over the
applied filters, so missing versus present-but-undefined keys must be
distinguished; only the keys the filter editor stages can occur. -/
structure PendingFilters where
  call_type : JSField String := JSField.missing
  date_from : JSField String := JSField.missing
  date_to : JSField String := JSField.missing
  time_from : JSField String := JSField.missing
  time_to : JSField String := JSField.missing
  duration_min : JSField Int := JSField.missing
  duration_max : JSField Int := JSField.missing
  user_id : JSField Int := JSField.missing
  branch_id : JSField Int := JSField.missing
  number : JSField String := JSField.missing
deriving Repr, DecidableEq

/-- The local state of the CallLogs page that the embedded operations touch. -/
structure FilterState where
  filters : CallLogFilters
  pending : PendingFilters
  search : String := ""
deriving Repr, DecidableEq

/-- getInitialFilters from CallLogs.tsx: page 1, per_page 20; a trainee with a
nonempty assigned list gets user_id defaulted to its first element; a manager
with a truthy branch_id gets branch_id forced. -/
def getInitialFilters (admin : Option Admin) : CallLogFilters :=
  let base : CallLogFilters := { page := some 1, per_page := some 20 }
  let base :=
    match admin with
    | some a =>
      if a.admin_role = "trainee" then
        match a.assigned_user_ids with
        | some ids => if ids.length > 0 then { base with user_id := some (ids.headD 0) } else base
        | none => base
      else base
    | none => base
  match admin with
  | some a =>
    if a.admin_role = "manager" then
      match a.branch_id with
      | some b => if b ≠ 0 then { base with branch_id := some b } else base
      | none => base
    else base
  | none => base

/-- availableUserIds from CallLogs.tsx: empty for super_admin (meaning all
users), the assigned list for a trainee that has one, empty otherwise. -/
def availableUserIds (admin : Option Admin) : List Int :=
  match admin with
  | some a =>
    if a.admin_role = "super_admin" then []
    else if a.admin_role = "trainee" then
      match a.assigned_user_ids with
      | some ids => ids
      | none => []
    else []
  | none => []

/-- A text-like input staged through handleFilterChange: the empty string is
staged as undefined (value or-else undefined), anything else verbatim. -/
def stagedOfString (s : String) : JSField String :=
  if s = "" then JSField.undef else JSField.val s

/-- A numeric input staged through handleFilterChange: the empty string is
undefined; otherwise parseInt, with NaN and 0 both falsy and hence staged as
undefined; any other number (negative included) is staged verbatim. -/
def stagedOfNumericInput (s : String) : JSField Int :=
  if s = "" then JSField.undef
  else
    match parseIntJS s with
    | none => JSField.undef
    | some n => if n = 0 then JSField.undef else JSField.val n

def stageCallType (s : String) (p : PendingFilters) : PendingFilters :=
  { p with call_type := stagedOfString s }

def stageDateFrom (s : String) (p : PendingFilters) : PendingFilters :=
  { p with date_from := stagedOfString s }

def stageDateTo (s : String) (p : PendingFilters) : PendingFilters :=
  { p with date_to := stagedOfString s }

def stageTimeFrom (s : String) (p : PendingFilters) : PendingFilters :=
  { p with time_from := stagedOfString s }

def stageTimeTo (s : String) (p : PendingFilters) : PendingFilters :=
  { p with time_to := stagedOfString s }

def stageDurationMin (s : String) (p : PendingFilters) : PendingFilters :=
  { p with duration_min := stagedOfNumericInput s }

def stageDurationMax (s : String) (p : PendingFilters) : PendingFilters :=
  { p with duration_max := stagedOfNumericInput s }

def stageUserId (s : String) (p : PendingFilters) : PendingFilters :=
  { p with user_id := stagedOfNumericInput s }

def stageBranchId (s : String) (p : PendingFilters) : PendingFilters :=
  { p with branch_id := stagedOfNumericInput s }

def stageNumber (s : String) (p : PendingFilters) : PendingFilters :=
  { p with number := stagedOfString s }

/-- The two locally recovered failure modes of applyFilters, surfaced as
alert messages in the source. -/
inductive ApplyError where
  | timeWithoutDate : ApplyError
  | userNotAssigned : ApplyError
deriving Repr, DecidableEq

/-- The alert text shown for each failure, naming the violated rule. -/
def ApplyError.message : ApplyError → String
  | .timeWithoutDate => "Please select a date when using time filters"
  | .userNotAssigned => "You can only view call logs for your assigned users"

/-- The trainee block of applyFilters (runs only when the caller is a trainee
with a nonempty availableUserIds): a truthy staged user_id outside the
assigned list is rejected; a falsy one is defaulted to the first assigned id
by writing into the pending object. -/
def traineeAdjust (avail : List Int) (p : PendingFilters) : Except ApplyError PendingFilters :=
  match p.user_id with
  | JSField.val u =>
    if u ≠ 0 then
      if avail.contains u then Except.ok p
      else Except.error ApplyError.userNotAssigned
    else Except.ok { p with user_id := JSField.val (avail.headD 0) }
  | _ => Except.ok { p with user_id := JSField.val (avail.headD 0) }

/-- The manager block of applyFilters: a manager with a truthy branch_id has
it written into the pending object, overriding anything staged. -/
def managerAdjust (admin : Option Admin) (p : PendingFilters) : PendingFilters :=
  match admin with
  | some a =>
    if a.admin_role = "manager" then
      match a.branch_id with
      | some b => if b ≠ 0 then { p with branch_id := JSField.val b } else p
      | none => p
    else p
  | none => p

/-- setFilters(\x7b ...filters, ...pendingFilters, page: 1 \x7d): spread of the
pending object over the applied one, then page forced to 1. -/
def mergeApply (f : CallLogFilters) (p : PendingFilters) : CallLogFilters :=
  { f with
    page := some 1
    call_type := JSField.ov f.call_type p.call_type
    date_from := JSField.ov f.date_from p.date_from
    date_to := JSField.ov f.date_to p.date_to
    time_from := JSField.ov f.time_from p.time_from
    time_to := JSField.ov f.time_to p.time_to
    duration_min := JSField.ov f.duration_min p.duration_min
    duration_max := JSField.ov f.duration_max p.duration_max
    user_id := JSField.ov f.user_id p.user_id
    branch_id := JSField.ov f.branch_id p.branch_id
    number := JSField.ov f.number p.number }

/-- The guard of the trainee block of applyFilters: a trainee session with a
nonempty availableUserIds list. -/
def traineeGuard (admin : Option Admin) : Bool :=
  roleIs admin "trainee" && (availableUserIds admin).length > 0

/-- applyFilters from CallLogs.tsx. Validation first: a truthy time_from or
time_to with both date_from and date_to falsy is rejected with an alert and
an early return, leaving both filter sets untouched. Then the trainee and
manager scope blocks adjust the pending object, and the result is merged
over the applied filters with page reset to 1. -/
def applyFilters (admin : Option Admin) (st : FilterState) : Except ApplyError FilterState :=
  if (st.pending.time_from.truthyStr || st.pending.time_to.truthyStr)
      && !st.pending.date_from.truthyStr && !st.pending.date_to.truthyStr then
    Except.error ApplyError.timeWithoutDate
  else
    match (if traineeGuard admin then
             traineeAdjust (availableUserIds admin) st.pending
           else Except.ok st.pending) with
    | Except.error e => Except.error e
    | Except.ok p1 =>
      Except.ok { filters := mergeApply st.filters (managerAdjust admin p1),
                  pending := managerAdjust admin p1, search := st.search }

/-- The page state after an applyFilters click: the new state on success, the
old state unchanged when an early return fired. -/
def afterApply (admin : Option Admin) (st : FilterState) : FilterState :=
  match applyFilters admin st with
  | Except.ok st' => st'
  | Except.error _ => st

/-- clearFilters from CallLogs.tsx: applied filters back to the role-derived
initial filters, pending filters emptied, search text cleared. -/
def clearFilters (admin : Option Admin) : FilterState :=
  { filters := getInitialFilters admin, pending := {}, search := "" }

/-- handleSort from CallLogs.tsx: clicking the current sort column toggles
the order, any other column selects it ascending; page resets to 1. -/
def handleSort (column : String) (st : FilterState) : FilterState :=
  let newSortOrder :=
    if st.filters.sort_by = some column then
      if st.filters.sort_order = some "asc" then "desc" else "asc"
    else "asc"
  { st with
    filters := { st.filters with
      sort_by := some column, sort_order := some newSortOrder, page := some 1 } }

/-- filters.page or-else 1, as in the pager arithmetic (page || 1). -/
def jsOrPage (p : Option Nat) : Nat :=
  match p with
  | some n => if n = 0 then 1 else n
  | none => 1

/-- The Previous pager button: disabled (none) exactly when page equals 1,
otherwise sets page to (page or-else 1) minus 1 directly, touching nothing
else and never consulting the pending filters. -/
def prevClick (f : CallLogFilters) : Option CallLogFilters :=
  if f.page = some 1 then none
  else some { f with page := some (jsOrPage f.page - 1) }

/-- The Next pager button: disabled (none) exactly when page equals the last
known page, otherwise sets page to (page or-else 1) plus 1 directly. -/
def nextClick (f : CallLogFilters) (lastPage : Nat) : Option CallLogFilters :=
  if f.page = some lastPage then none
  else some { f with page := some (jsOrPage f.page + 1) }

/-- Civil date from a day count since 1970-01-01 (the proleptic Gregorian
calendar arithmetic that the JavaScript Date object performs): returns
(year, month 1..12, day 1..31). -/
def civilFromDays (z0 : Int) : Int × Nat × Nat :=
  let z := z0 + 719468
  let era : Int := (if 0 ≤ z then z else z - 146096) / 146097
  let doe : Nat := (z - era * 146097).toNat
  let yoe : Nat := (doe - doe / 1460 + doe / 36524 - doe / 146096) / 365
  let y : Int := (yoe : Int) + era * 400
  let doy : Nat := doe - (365 * yoe + yoe / 4 - yoe / 100)
  let mp : Nat := (5 * doy + 2) / 153
  let d : Nat := doy - (153 * mp + 2) / 5 + 1
  let m : Nat := if mp < 10 then mp + 3 else mp - 9
  (if m ≤ 2 then y + 1 else y, m, d)

/-- Day of week of a day count, 0 = Sunday, as JavaScript getDay returns
(1970-01-01 was a Thursday). -/
def dayOfWeek (z : Int) : Nat :=
  (Int.emod (z + 4) 7).toNat

/-- Two-digit zero padding, String(n).padStart(2, the zero digit). -/
def pad2 (n : Nat) : String :=
  if n < 10 then "0" ++ toString n else toString n

/-- formatDate from CallLogs.tsx: YYYY-MM-DD without timezone conversion. -/
def formatCivil (c : Int × Nat × Nat) : String :=
  toString c.1 ++ "-" ++ pad2 c.2.1 ++ "-" ++ pad2 c.2.2

/-- getDateRangeForPeriod from CallLogs.tsx, with today given as a local
epoch-day count: daily is today twice; weekly runs from the most recent
Sunday (setDate of today minus getDay) to today; monthly runs from the first
of the current month to today; any other period yields no dates. -/
def getDateRangeForPeriod (period : String) (now : Int) : Option String × Option String :=
  if period = "daily" then
    (some (formatCivil (civilFromDays now)), some (formatCivil (civilFromDays now)))
  else if period = "weekly" then
    (some (formatCivil (civilFromDays (now - dayOfWeek now))),
     some (formatCivil (civilFromDays now)))
  else if period = "monthly" then
    (some (formatCivil ((civilFromDays now).1, (civilFromDays now).2.1, 1)),
     some (formatCivil (civilFromDays now)))
  else (none, none)

/-- The URL-preset effect of CallLogs.tsx: when the call_type or period search
parameter is truthy, the applied filters are rebuilt from getInitialFilters
(never from the previously applied set) with the preset call type and the
period date range written on top, and the pending filters are replaced by an
object holding exactly the call_type, date_from and date_to keys; otherwise
the state is untouched. -/
def urlPresetEffect (admin : Option Admin) (callType period : Option String)
    (now : Int) (st : FilterState) : FilterState :=
  if jsTruthyOptStr callType || jsTruthyOptStr period then
    let nf0 := getInitialFilters admin
    let nf1 := if jsTruthyOptStr callType then { nf0 with call_type := callType } else nf0
    let nf2 :=
      if jsTruthyOptStr period then
        let dr := getDateRangeForPeriod (period.getD "") now
        { nf1 with date_from := dr.1, date_to := dr.2 }
      else nf1
    { filters := nf2,
      pending := { call_type := JSField.ofOpt nf2.call_type,
                   date_from := JSField.ofOpt nf2.date_from,
                   date_to := JSField.ofOpt nf2.date_to },
      search := st.search }
  else st

/-- A sidebar entry: its route, label, and the optional explicit role list
(absent means no restriction recorded). -/
structure NavItem where
  route : String
  label : String
  allowedRoles : Option (List String) := none
deriving Repr, DecidableEq

/-- The main navigation list of the sidebar. -/
def allNavItems : List NavItem :=
  [ { route := "/dashboard", label := "Dashboard" },
    { route := "/call-logs", label := "Call Logs" },
    { route := "/devices", label := "Devices", allowedRoles := some ["super_admin", "manager"] } ]

/-- The Administration navigation list of the sidebar. The App Users entry
carries no allowedRoles restriction. -/
def allAdminNavItems : List NavItem :=
  [ { route := "/branches", label := "Branches", allowedRoles := some ["super_admin"] },
    { route := "/users", label := "App Users" },
    { route := "/admins", label := "Admins", allowedRoles := some ["super_admin"] },
    { route := "/login-activities", label := "Login Activity",
      allowedRoles := some ["super_admin", "manager"] } ]

/-- The App Users sidebar entry. -/
def usersNavItem : NavItem := { route := "/users", label := "App Users" }

/-- The Branches sidebar entry. -/
def branchesNavItem : NavItem :=
  { route := "/branches", label := "Branches", allowedRoles := some ["super_admin"] }

/-- The sidebar visibility predicate: when the item has an allowedRoles list
and the session role is truthy, membership decides; in every other case the
item is shown. -/
def navItemVisible (adminRole : Option String) (item : NavItem) : Bool :=
  match item.allowedRoles, adminRole with
  | some roles, some r => if r ≠ "" then roles.contains r else true
  | _, _ => true

/-- The rendered main navigation for a session role. -/
def navItemsFor (adminRole : Option String) : List NavItem :=
  allNavItems.filter (navItemVisible adminRole)

/-- The rendered Administration navigation for a session role. -/
def adminNavItemsFor (adminRole : Option String) : List NavItem :=
  allAdminNavItems.filter (navItemVisible adminRole)

/-- What a guarded route renders. -/
inductive RouteRender where
  | page : RouteRender
  | redirectToLogin : RouteRender
deriving Repr, DecidableEq

/-- ProtectedRoute from App.tsx: renders its child page whenever the session
is authenticated; the admin role is never consulted. -/
def protectedRoute (isAuthenticated : Bool) : RouteRender :=
  if isAuthenticated then RouteRender.page else RouteRender.redirectToLogin

/-- The /users route of App.tsx: the Users page behind ProtectedRoute only. -/
def usersRoute (isAuthenticated : Bool) : RouteRender :=
  protectedRoute isAuthenticated

/-- canEdit from Admins.tsx: only super_admin manages other admins. -/
def canEditAdmins (admin : Option Admin) : Bool :=
  roleIs admin "super_admin"

/-- handleDelete from Admins.tsx: a request targeting the session admin id is
rejected with an error toast before any confirmation; otherwise the delete
mutation fires once the user confirms. Returns the id sent to the delete
endpoint, if any. -/
def handleDeleteAdmin (current : Option Admin) (targetId : Int) (confirmed : Bool) : Option Int :=
  match current with
  | some a =>
    if a.id = targetId then none
    else if confirmed then some targetId else none
  | none => if confirmed then some targetId else none

/-- The edit/delete button group guard of Admins.tsx: rendered only for a
super_admin session and only on cards of other admins. -/
def deleteButtonShown (current : Option Admin) (target : Admin) : Bool :=
  canEditAdmins current &&
    (match current with
     | some a => target.id ≠ a.id
     | none => true)

/-- shouldShowRecordings from CallLogs.tsx: no recordings for missed or
rejected calls or zero duration; otherwise shown when the count is positive. -/
def shouldShowRecordings (callType : String) (callDuration : Int) (recordingsCount : Nat) : Bool :=
  if callType = "missed" ∨ callType = "rejected" ∨ callDuration = 0 then false
  else decide (recordingsCount > 0)

/-- A row of the call-logs table, restricted to the fields the recording
column reads; recordings_count may be absent from the API payload. -/
structure CallLogRow where
  call_type : String
  call_duration : Int
  recordings_count : Option Nat := none
deriving Repr, DecidableEq

/-- canManageCallLogs from CallLogs.tsx: only super_admin downloads
recordings and deletes call logs. -/
def canManageCallLogs (admin : Option Admin) : Bool :=
  roleIs admin "super_admin"

/-- The recording column of the table: (play shown, download shown). Play is
offered when shouldShowRecordings holds of the row (with an absent count read
as 0); download additionally requires canManageCallLogs. -/
def tableRecordingControls (admin : Option Admin) (log : CallLogRow) : Bool × Bool :=
  let shown := shouldShowRecordings log.call_type log.call_duration (log.recordings_count.getD 0)
  (shown, shown && canManageCallLogs admin)

/-- The detail modal data: call fields plus the fetched recordings list
(absent until loaded); recordings are abstracted to their ids. -/
structure CallLogDetail where
  call_type : String
  call_duration : Int
  recordings : Option (List Int) := none
deriving Repr, DecidableEq

/-- The recordings section guard of the detail modal: shouldShowRecordings on
the fetched list length, and the list must be present and nonempty. -/
def modalRecordingsShown (detail : CallLogDetail) : Bool :=
  shouldShowRecordings detail.call_type detail.call_duration
      ((detail.recordings.map List.length).getD 0)
    && detail.recordings.isSome
    && decide (((detail.recordings.map List.length).getD 0) > 0)

/-- A concrete super_admin session. -/
def saAdmin : Admin := { id := 1, admin_role := "super_admin" }

/-- A concrete manager session scoped to branch 7. -/
def mgrAdmin : Admin := { id := 2, admin_role := "manager", branch_id := some 7 }

/-- A concrete trainee session assigned users 42 and 43. -/
def trnAdmin : Admin := { id := 3, admin_role := "trainee", assigned_user_ids := some [42, 43] }

/-- A super_admin state on page 2 with a bare time filter staged. -/
def stTimeNoDate : FilterState :=
  { filters := { getInitialFilters (some saAdmin) with page := some 2 },
    pending := stageTimeFrom "09:00" {} }

/-- A super_admin state on page 1 with a bare time filter staged. -/
def stBareTime : FilterState :=
  { filters := getInitialFilters (some saAdmin), pending := stageTimeFrom "09:00" {} }

/-- A super_admin state with duration_min staged to -5. -/
def stNegDur : FilterState :=
  { filters := getInitialFilters (some saAdmin), pending := stageDurationMin "-5" {} }

/-- The manager state with a foreign branch id 9 staged. -/
def stMgrBranch9 : FilterState :=
  { filters := getInitialFilters (some mgrAdmin), pending := stageBranchId "9" {} }

/-- The trainee state with nothing staged. -/
def stTrn : FilterState :=
  { filters := getInitialFilters (some trnAdmin), pending := {} }

/-- The applied filters a fresh super_admin session starts from (page 1). -/
def pageOneFilters : CallLogFilters := getInitialFilters (some saAdmin)

/-- A fresh super_admin state. -/
def stSa : FilterState := { filters := getInitialFilters (some saAdmin), pending := {} }

/-- A super_admin state with unrelated applied filters, to witness that the
URL preset does not depend on the previously applied set. -/
def stSaDirty : FilterState :=
  { filters := { getInitialFilters (some saAdmin) with page := some 4, duration_min := some 30 },
    pending := stageDurationMax "600" {} }

/-- A concrete answered incoming call with one recording. -/
def exampleIncomingRow : CallLogRow :=
  { call_type := "incoming", call_duration := 60, recordings_count := some 1 }

/-! Helper lemmas shared by several results. -/

theorem getInitialFilters_page (admin : Option Admin) :
    (getInitialFilters admin).page = some 1 := by
  unfold getInitialFilters
  cases admin with
  | none => rfl
  | some a =>
    simp only []
    repeat' split
    all_goals rfl

theorem getInitialFilters_branch (a : Admin) (b : Int)
    (hr : a.admin_role = "manager") (hb : a.branch_id = some b) (h0 : b ≠ 0) :
    (getInitialFilters (some a)).branch_id = some b := by
  unfold getInitialFilters
  simp only [hr, hb]
  repeat' split
  all_goals simp_all

theorem getInitialFilters_trainee_user (a : Admin) (ids : List Int)
    (hr : a.admin_role = "trainee") (hi : a.assigned_user_ids = some ids) (hne : ids ≠ []) :
    (getInitialFilters (some a)).user_id = some (ids.headD 0) := by
  unfold getInitialFilters
  have hlen : 0 < ids.length := List.length_pos.mpr hne
  simp only [hr, hi]
  repeat' split
  all_goals simp_all

theorem headD_mem (ids : List Int) (hne : ids ≠ []) : ids.headD 0 ∈ ids := by
  cases ids with
  | nil => exact absurd rfl hne
  | cons x xs => simp [List.headD]

theorem traineeAdjust_ok (avail : List Int) (p p' : PendingFilters)
    (h : traineeAdjust avail p = Except.ok p') :
    (p' = p ∧ ∃ u, p.user_id = JSField.val u ∧ u ≠ 0 ∧ avail.contains u = true) ∨
    p' = { p with user_id := JSField.val (avail.headD 0) } := by
  unfold traineeAdjust at h
  split at h
  · rename_i u hu
    split at h
    · rename_i hu0
      split at h
      · rename_i hc
        left
        exact ⟨by injection h with h; exact h.symm, u, hu, hu0, hc⟩
      · cases h
    · rename_i hu0
      right
      injection h with h
      simp at hu0
      exact h.symm
  · right
    injection h with h
    exact h.symm

theorem managerAdjust_eq (admin : Option Admin) (p : PendingFilters) :
    managerAdjust admin p = p ∨
    ∃ a b, admin = some a ∧ a.admin_role = "manager" ∧ a.branch_id = some b ∧ b ≠ 0 ∧
      managerAdjust admin p = { p with branch_id := JSField.val b } := by
  unfold managerAdjust
  cases admin with
  | none => exact Or.inl rfl
  | some a =>
    by_cases hr : a.admin_role = "manager"
    · cases hb : a.branch_id with
      | none => simp [hr, hb]
      | some b =>
        by_cases h0 : b = 0
        · simp [hr, hb, h0]
        · right
          exact ⟨a, b, rfl, hr, hb, h0, by simp [hr, hb, h0]⟩
    · simp [hr]

theorem managerAdjust_manager (a : Admin) (p : PendingFilters) (b : Int)
    (hr : a.admin_role = "manager") (hb : a.branch_id = some b) (h0 : b ≠ 0) :
    managerAdjust (some a) p = { p with branch_id := JSField.val b } := by
  simp [managerAdjust, hr, hb, h0]

theorem applyFilters_ok_shape (admin : Option Admin) (st st' : FilterState)
    (h : applyFilters admin st = Except.ok st') :
    ∃ p1 : PendingFilters,
      (traineeGuard admin = true ∧
         traineeAdjust (availableUserIds admin) st.pending = Except.ok p1 ∨
       traineeGuard admin = false ∧ p1 = st.pending) ∧
      st' = { filters := mergeApply st.filters (managerAdjust admin p1),
              pending := managerAdjust admin p1, search := st.search } := by
  unfold applyFilters at h
  split at h
  · cases h
  · by_cases hg : traineeGuard admin = true
    · rw [if_pos hg] at h
      cases ht : traineeAdjust (availableUserIds admin) st.pending with
      | error e => rw [ht] at h; cases h
      | ok p1 =>
        rw [ht] at h
        injection h with h
        exact ⟨p1, Or.inl ⟨hg, rfl⟩, h.symm⟩
    · rw [if_neg hg] at h
      injection h with h
      exact ⟨st.pending, Or.inr ⟨by simpa using hg, rfl⟩, h.symm⟩

/-- C1 counterexample. The claim says every resource/role combination not
explicitly granted in the policy table computes to invisible. In the code the
App Users entry carries no grant list at all, yet it is visible to a manager,
and an item restricted to super_admin is visible when the session role is
unknown: the defaults are visible, not invisible. -/
theorem nav_policy_not_fail_closed_cex :
    usersNavItem.allowedRoles = none ∧
    navItemVisible (some "manager") usersNavItem = true ∧
    usersNavItem ∈ adminNavItemsFor (some "manager") ∧
    branchesNavItem.allowedRoles = some ["super_admin"] ∧
    navItemVisible none branchesNavItem = true := by decide

/-- C1 (amended): the sidebar policy is fail-open, not fail-closed. An item
without an allowedRoles list is rendered for every role; when the session
role is missing every item is rendered, restrictions included; only an item
with an explicit allowedRoles list seen by a known nonempty role is restricted
to exactly the listed roles. -/
theorem nav_policy_fail_open :
    (∀ role, usersNavItem ∈ adminNavItemsFor role) ∧
    (∀ item ∈ allAdminNavItems, item ∈ adminNavItemsFor none) ∧
    (∀ item ∈ allNavItems, item ∈ navItemsFor none) ∧
    (∀ r roles item, item.allowedRoles = some roles → r ≠ "" →
      navItemVisible (some r) item = roles.contains r) := by
  refine ⟨?_, ?_, ?_, ?_⟩
  · intro role
    apply List.mem_filter.mpr
    refine ⟨by decide, ?_⟩
    cases role <;> rfl
  · intro item h
    apply List.mem_filter.mpr
    refine ⟨h, ?_⟩
    cases har : item.allowedRoles <;> simp [navItemVisible, har]
  · intro item h
    apply List.mem_filter.mpr
    refine ⟨h, ?_⟩
    cases har : item.allowedRoles <;> simp [navItemVisible, har]
  · intro r roles item h hr
    simp [navItemVisible, h, hr]

/-- C1 witness: the amended fail-open policy applied at concrete inputs; for
the explicitly granted Branches entry and the manager role, visibility is
exactly list membership. -/
theorem nav_policy_fail_open_witness :
    branchesNavItem.allowedRoles = some ["super_admin"] ∧ "manager" ≠ "" ∧
    navItemVisible (some "manager") branchesNavItem = (["super_admin"].contains "manager") :=
  ⟨by decide, by decide,
    nav_policy_fail_open.2.2.2 "manager" ["super_admin"] branchesNavItem rfl (by decide)⟩

/-- C2 counterexample. The claim says the users resource has visibility false
for a trainee; in the code the App Users sidebar entry is rendered for a
trainee session, and the /users route renders behind authentication alone. -/
theorem users_nav_visible_to_trainee_cex :
    usersNavItem ∈ adminNavItemsFor (some "trainee") ∧
    usersRoute true = RouteRender.page := by decide

/-- C2 (amended): the users view is open to every role. The App Users sidebar
entry carries no role restriction and is visible whatever the session role,
and the /users route consults only authentication, never the role. -/
theorem users_view_open_to_all_roles :
    (∀ role, navItemVisible role usersNavItem = true) ∧
    (∀ role, usersNavItem ∈ adminNavItemsFor role) ∧
    (∀ isAuthenticated, usersRoute isAuthenticated = RouteRender.page ↔ isAuthenticated = true) := by
  refine ⟨?_, ?_, ?_⟩
  · intro role
    cases role <;> rfl
  · intro role
    exact List.mem_filter.mpr ⟨by decide, by cases role <;> rfl⟩
  · intro b
    cases b <;> simp [usersRoute, protectedRoute]

/-- C5: no role may delete its own admin account: handleDelete rejects a
request targeting the session admin id before any confirmation, and the
delete button is not even rendered on the session admin's own card. -/
theorem self_delete_forbidden (a : Admin) (confirmed : Bool) :
    handleDeleteAdmin (some a) a.id confirmed = none ∧
    deleteButtonShown (some a) a = false := by
  constructor
  · simp [handleDeleteAdmin]
  · simp [deleteButtonShown]

/-- C4: a pending set with a truthy time_from or time_to and both date_from
and date_to falsy makes applyFilters fail with the time-without-date rule:
the error names the rule, the state a re-render sees is exactly the old one
(applied and pending filters both untouched), and no merged query is built. -/
theorem applyFilters_time_without_date (admin : Option Admin) (st : FilterState)
    (h1 : (st.pending.time_from.truthyStr || st.pending.time_to.truthyStr) = true)
    (h2 : st.pending.date_from.truthyStr = false)
    (h3 : st.pending.date_to.truthyStr = false) :
    applyFilters admin st = Except.error ApplyError.timeWithoutDate ∧
    afterApply admin st = st ∧
    ApplyError.message ApplyError.timeWithoutDate =
      "Please select a date when using time filters" := by
  have happ : applyFilters admin st = Except.error ApplyError.timeWithoutDate := by
    unfold applyFilters
    simp [h1, h2, h3]
  exact ⟨happ, by unfold afterApply; rw [happ], rfl⟩

/-- C4 witness: a super_admin stages only time_from 09:00; applying fails
with the time-without-date rule and leaves the state untouched. -/
theorem applyFilters_time_without_date_witness :
    (stBareTime.pending.time_from.truthyStr || stBareTime.pending.time_to.truthyStr) = true ∧
    applyFilters (some saAdmin) stBareTime = Except.error ApplyError.timeWithoutDate ∧
    afterApply (some saAdmin) stBareTime = stBareTime :=
  ⟨by decide,
   (applyFilters_time_without_date (some saAdmin) stBareTime (by decide) (by decide) (by decide)).1,
   (applyFilters_time_without_date (some saAdmin) stBareTime (by decide) (by decide) (by decide)).2.1⟩

/-- C10 counterexample. The claim says playback and download are offered
exactly when the call is neither missed nor rejected, has nonzero duration,
and has recordings. For a manager session those conditions hold of an
answered incoming call with one recording, yet the download control is not
offered (it also requires super_admin). -/
theorem download_requires_super_admin_cex :
    shouldShowRecordings "incoming" 60 1 = true ∧
    tableRecordingControls (some mgrAdmin) exampleIncomingRow = (true, false) := by decide

theorem shouldShowRecordings_iff (ct : String) (d : Int) (n : Nat) :
    shouldShowRecordings ct d n = true ↔
      (ct ≠ "missed" ∧ ct ≠ "rejected" ∧ d ≠ 0 ∧ n > 0) := by
  unfold shouldShowRecordings
  split_ifs with h
  · simp only [Bool.false_eq_true, false_iff]
    rintro ⟨hm, hr, hd, -⟩
    rcases h with h | h | h
    · exact hm h
    · exact hr h
    · exact hd h
  · push_neg at h
    simp [h.1, h.2.1, h.2.2]

/-- C10 (amended): the playback control of the table and the recordings
section of the detail modal are offered exactly when the call type is neither
missed nor rejected, the duration is nonzero, and the recordings count (or
fetched list) is nonempty; the download control additionally requires the
super_admin role. -/
theorem recording_controls_characterization (admin : Option Admin) (log : CallLogRow)
    (detail : CallLogDetail) :
    ((tableRecordingControls admin log).1 = true ↔
      (log.call_type ≠ "missed" ∧ log.call_type ≠ "rejected" ∧ log.call_duration ≠ 0 ∧
        log.recordings_count.getD 0 > 0)) ∧
    ((tableRecordingControls admin log).2 = true ↔
      ((tableRecordingControls admin log).1 = true ∧ canManageCallLogs admin = true)) ∧
    (modalRecordingsShown detail = true ↔
      (detail.call_type ≠ "missed" ∧ detail.call_type ≠ "rejected" ∧ detail.call_duration ≠ 0 ∧
        (detail.recordings.getD []).length > 0)) := by
  refine ⟨?_, ?_, ?_⟩
  · simpa [tableRecordingControls] using
      shouldShowRecordings_iff log.call_type log.call_duration (log.recordings_count.getD 0)
  · simp [tableRecordingControls, Bool.and_eq_true]
  · cases hrec : detail.recordings with
    | none =>
      simp [modalRecordingsShown, hrec]
    | some l =>
      simp only [modalRecordingsShown, hrec, Option.map_some, Option.getD_some, Option.isSome_some,
        Bool.and_true, Bool.and_eq_true, decide_eq_true_eq]
      rw [shouldShowRecordings_iff]
      constructor
      · rintro ⟨⟨hm, hr, hd, hl⟩, -⟩
        exact ⟨hm, hr, hd, hl⟩
      · rintro ⟨hm, hr, hd, hl⟩
        exact ⟨⟨hm, hr, hd, hl⟩, hl⟩

/-- C6 counterexample. The claim says a staged negative numeric filter is
treated as absent, so applying duration_min = -5 should leave the resolved
query without a duration_min key. In the code -5 is truthy, is staged
verbatim, and the merged applied set carries duration_min = -5. -/
theorem negative_duration_applied_cex :
    stNegDur.pending.duration_min = JSField.val (-5) ∧
    (afterApply (some saAdmin) stNegDur).filters.duration_min = some (-5) := by decide

/-- C6 (amended): a numeric filter input is treated as absent exactly when it
is empty or parses to NaN or to 0 (all falsy); a negative value such as -5 is
staged verbatim, and a successful apply copies the staged value (negative
included) into the applied set, the staged undefined clearing the key. -/
theorem numeric_staging_semantics (s : String) (p : PendingFilters) (admin : Option Admin)
    (st st' : FilterState) :
    (parseIntJS s = none → (stageDurationMin s p).duration_min = JSField.undef) ∧
    (s = "" → (stageDurationMin s p).duration_min = JSField.undef) ∧
    (parseIntJS s = some 0 → (stageDurationMin s p).duration_min = JSField.undef) ∧
    (∀ n, parseIntJS s = some n → n ≠ 0 → s ≠ "" →
      (stageDurationMin s p).duration_min = JSField.val n) ∧
    (applyFilters admin st = Except.ok st' →
      st'.filters.duration_min = JSField.ov st.filters.duration_min st.pending.duration_min) := by
  refine ⟨?_, ?_, ?_, ?_, ?_⟩
  · intro h
    by_cases hs : s = "" <;> simp [stageDurationMin, stagedOfNumericInput, hs, h]
  · intro h
    simp [stageDurationMin, stagedOfNumericInput, h]
  · intro h
    by_cases hs : s = "" <;> simp [stageDurationMin, stagedOfNumericInput, hs, h]
  · intro n h hn hs
    simp [stageDurationMin, stagedOfNumericInput, hs, h, hn]
  · intro h
    obtain ⟨p1, hp1, hst⟩ := applyFilters_ok_shape admin st st' h
    have hdm1 : p1.duration_min = st.pending.duration_min := by
      rcases hp1 with ⟨-, ht⟩ | ⟨-, rfl⟩
      · rcases traineeAdjust_ok _ _ _ ht with ⟨rfl, -⟩ | rfl <;> rfl
      · rfl
    have hdm2 : (managerAdjust admin p1).duration_min = p1.duration_min := by
      rcases managerAdjust_eq admin p1 with he | ⟨a, b, -, -, -, -, he⟩ <;> rw [he]
    subst hst
    show (mergeApply st.filters (managerAdjust admin p1)).duration_min = _
    simp [mergeApply, hdm2, hdm1]

/-- C6 witness: a non-numeric input stages undefined; the input -5 stages
the value -5. -/
theorem numeric_staging_semantics_witness :
    parseIntJS "abc" = none ∧
    (stageDurationMin "abc" {}).duration_min = JSField.undef ∧
    parseIntJS "-5" = some (-5) ∧
    (stageDurationMin "-5" {}).duration_min = JSField.val (-5) :=
  ⟨by decide,
   (numeric_staging_semantics "abc" {} none stSa stSa).1 (by decide),
   by decide,
   (numeric_staging_semantics "-5" {} none stSa stSa).2.2.2.1 (-5) (by decide) (by decide)
     (by decide)⟩

/-- C3: role-forced scope constraints survive every filter operation. A
manager with a truthy branch id has branch_id equal to it in the initial
state, after clearFilters, and after any successful applyFilters call, even
when a different branch id was staged. A trainee with a nonempty assigned
list has user_id within the list (defaulting to its first element when
unspecified) in the initial state, after clearFilters, and after any
successful applyFilters call; a failed applyFilters changes nothing. -/
theorem forced_scope_invariant (a : Admin) (st : FilterState) :
    (∀ b, a.admin_role = "manager" → a.branch_id = some b → b ≠ 0 →
      (getInitialFilters (some a)).branch_id = some b ∧
      (clearFilters (some a)).filters.branch_id = some b ∧
      ∀ st', applyFilters (some a) st = Except.ok st' → st'.filters.branch_id = some b) ∧
    (∀ ids, a.admin_role = "trainee" → a.assigned_user_ids = some ids → ids ≠ [] →
      ((getInitialFilters (some a)).user_id = some (ids.headD 0) ∧ ids.headD 0 ∈ ids) ∧
      (clearFilters (some a)).filters.user_id = some (ids.headD 0) ∧
      ∀ st', applyFilters (some a) st = Except.ok st' →
        ∃ u, st'.filters.user_id = some u ∧ u ∈ ids) := by
  constructor
  · intro b hr hb h0
    refine ⟨getInitialFilters_branch a b hr hb h0, getInitialFilters_branch a b hr hb h0, ?_⟩
    intro st' h
    obtain ⟨p1, -, hst⟩ := applyFilters_ok_shape (some a) st st' h
    subst hst
    show (mergeApply st.filters (managerAdjust (some a) p1)).branch_id = some b
    rw [managerAdjust_manager a p1 b hr hb h0]
    rfl
  · intro ids hr hi hne
    have hmem := headD_mem ids hne
    have hlen : 0 < ids.length := List.length_pos.mpr hne
    refine ⟨⟨getInitialFilters_trainee_user a ids hr hi hne, hmem⟩,
            getInitialFilters_trainee_user a ids hr hi hne, ?_⟩
    intro st' h
    obtain ⟨p1, hp1, hst⟩ := applyFilters_ok_shape (some a) st st' h
    subst hst
    have hnm : managerAdjust (some a) p1 = p1 := by simp [managerAdjust, hr]
    have havail : availableUserIds (some a) = ids := by simp [availableUserIds, hr, hi]
    rcases hp1 with ⟨-, ht⟩ | ⟨hg, -⟩
    · rw [havail] at ht
      rcases traineeAdjust_ok ids st.pending p1 ht with ⟨rfl, u, hu, -, hc⟩ | rfl
      · refine ⟨u, ?_, by simpa using hc⟩
        show (mergeApply st.filters (managerAdjust (some a) st.pending)).user_id = some u
        rw [hnm]
        simp [mergeApply, hu, JSField.ov]
      · refine ⟨ids.headD 0, ?_, hmem⟩
        show (mergeApply st.filters (managerAdjust (some a)
          { st.pending with user_id := JSField.val (ids.headD 0) })).user_id =
            some (ids.headD 0)
        rw [hnm]
        simp [mergeApply, JSField.ov]
    · exfalso
      have hg' : traineeGuard (some a) = true := by
        simp [traineeGuard, roleIs, hr, havail, hlen]
      rw [hg'] at hg
      cases hg

/-- C3 witness: the manager of branch 7 stages branch 9 and applies; the
applied branch_id is still 7. The trainee with assigned users [42, 43]
clears filters; the applied user_id is the first assigned id 42. -/
theorem forced_scope_invariant_witness :
    (∃ st', applyFilters (some mgrAdmin) stMgrBranch9 = Except.ok st' ∧
      st'.filters.branch_id = some 7) ∧
    (clearFilters (some trnAdmin)).filters.user_id = some 42 := by
  constructor
  · obtain ⟨-, -, h3⟩ := (forced_scope_invariant mgrAdmin stMgrBranch9).1 7 rfl rfl (by decide)
    exact ⟨_, rfl, h3 _ rfl⟩
  · have h := ((forced_scope_invariant trnAdmin stTrn).2 [42, 43] rfl rfl (by decide)).2.1
    simpa using h

/-- C7 counterexample. The claim says an out-of-range page request fails with
an OutOfRangeError and an in-range n is settable directly. The pager is the
only page-setting surface of the code: from page 1 of 3 the Previous button
is simply disabled (no error value exists anywhere), and the only page
reachable in one step is 2, not an arbitrary in-range page such as 3. -/
theorem pager_no_out_of_range_error_cex :
    prevClick pageOneFilters = none ∧
    nextClick pageOneFilters 3 = some { pageOneFilters with page := some 2 } := by decide

/-- C7 (amended): page navigation is by previous/next steps only. The
Previous button is disabled at page 1, the Next button at the last known
page, so an out-of-range request is never issued (the state stays unchanged
and no error is raised); an enabled step rewrites only the page field of the
applied filters, to the adjacent page, with no validation of other fields
and no merge from the pending filters. -/
theorem pager_step_semantics (f : CallLogFilters) (p lastPage : Nat)
    (hp : f.page = some p) (h0 : p ≠ 0) :
    (p = 1 → prevClick f = none) ∧
    (p ≠ 1 → prevClick f = some { f with page := some (p - 1) }) ∧
    (p = lastPage → nextClick f lastPage = none) ∧
    (p ≠ lastPage → nextClick f lastPage = some { f with page := some (p + 1) }) := by
  refine ⟨?_, ?_, ?_, ?_⟩
  · intro h1
    subst h1
    simp [prevClick, hp]
  · intro h1
    simp [prevClick, hp, h1, jsOrPage, h0]
  · intro h1
    subst h1
    simp [nextClick, hp]
  · intro h1
    simp [nextClick, hp, h1, jsOrPage, h0]

/-- C7 witness: at page 1 the Previous button is disabled. -/
theorem pager_step_semantics_witness :
    pageOneFilters.page = some 1 ∧ prevClick pageOneFilters = none :=
  ⟨by decide, (pager_step_semantics pageOneFilters 1 3 (by decide) (by decide)).1 rfl⟩

/-- C8 counterexample. The claim says every applyPendingFilters call leaves
page equal to 1. A super_admin on page 2 with a bare time filter staged calls
applyFilters; validation fails, the state is unchanged, and page is still 2. -/
theorem page_not_reset_on_failed_apply_cex :
    applyFilters (some saAdmin) stTimeNoDate = Except.error ApplyError.timeWithoutDate ∧
    (afterApply (some saAdmin) stTimeNoDate).filters.page = some 2 := by
  constructor
  · rfl
  · rfl

/-- C8 (amended): every handleSort call, every successful applyFilters call,
and every triggered URL-preset application resets the applied page to 1; an
applyFilters call that fails validation leaves the state, page included,
unchanged. -/
theorem page_reset_to_one (admin : Option Admin) (st st' : FilterState) (column : String)
    (ct per : Option String) (now : Int) :
    (handleSort column st).filters.page = some 1 ∧
    (applyFilters admin st = Except.ok st' → st'.filters.page = some 1) ∧
    ((jsTruthyOptStr ct || jsTruthyOptStr per) = true →
      (urlPresetEffect admin ct per now st).filters.page = some 1) := by
  refine ⟨?_, ?_, ?_⟩
  · rfl
  · intro h
    obtain ⟨p1, -, hst⟩ := applyFilters_ok_shape admin st st' h
    subst hst
    rfl
  · intro hcond
    simp only [urlPresetEffect, hcond, if_true]
    by_cases hct : jsTruthyOptStr ct = true <;> by_cases hper : jsTruthyOptStr per = true <;>
      simp [hct, hper, getInitialFilters_page]

/-- C8 witness: sorting by call_type from a dirty state and applying the
missed-calls preset both land on page 1. -/
theorem page_reset_to_one_witness :
    (handleSort "call_type" stSaDirty).filters.page = some 1 ∧
    (jsTruthyOptStr (some "missed") || jsTruthyOptStr none) = true ∧
    (urlPresetEffect (some saAdmin) (some "missed") none 20740 stSaDirty).filters.page = some 1 :=
  ⟨(page_reset_to_one (some saAdmin) stSaDirty stSa "call_type" (some "missed") none 20740).1,
   by decide,
   (page_reset_to_one (some saAdmin) stSaDirty stSa "call_type" (some "missed") none
     20740).2.2 (by decide)⟩

/-- C9: the URL preset is idempotent and base-anchored. Re-running the effect
with the same parameters is a no-op; when the preset triggers, the resulting
applied filters do not depend on the previously applied state at all, page is
1, and every field outside the preset (per_page, user_id, branch_id, the
durations, sorting) equals the value of the role-derived base state. -/
theorem url_preset_idempotent_base_anchored (admin : Option Admin) (ct per : Option String)
    (now : Int) (st other : FilterState) :
    urlPresetEffect admin ct per now (urlPresetEffect admin ct per now st) =
      urlPresetEffect admin ct per now st ∧
    ((jsTruthyOptStr ct || jsTruthyOptStr per) = true →
      (urlPresetEffect admin ct per now st).filters =
        (urlPresetEffect admin ct per now other).filters ∧
      (urlPresetEffect admin ct per now st).filters.page = some 1 ∧
      (urlPresetEffect admin ct per now st).filters.per_page = (getInitialFilters admin).per_page ∧
      (urlPresetEffect admin ct per now st).filters.user_id = (getInitialFilters admin).user_id ∧
      (urlPresetEffect admin ct per now st).filters.branch_id =
        (getInitialFilters admin).branch_id ∧
      (urlPresetEffect admin ct per now st).filters.duration_min =
        (getInitialFilters admin).duration_min ∧
      (urlPresetEffect admin ct per now st).filters.duration_max =
        (getInitialFilters admin).duration_max ∧
      (urlPresetEffect admin ct per now st).filters.sort_by =
        (getInitialFilters admin).sort_by) := by
  by_cases hcond : (jsTruthyOptStr ct || jsTruthyOptStr per) = true
  · constructor
    · simp [urlPresetEffect, hcond]
    · intro _hc
      refine ⟨?_, ?_, ?_, ?_, ?_, ?_, ?_, ?_⟩ <;>
        (by_cases hct : jsTruthyOptStr ct = true <;> by_cases hper : jsTruthyOptStr per = true <;>
          simp_all [urlPresetEffect, getInitialFilters_page])
  · have hid : ∀ s : FilterState, urlPresetEffect admin ct per now s = s := by
      intro s
      simp [urlPresetEffect, hcond]
    exact ⟨by rw [hid, hid], fun hc => absurd hc hcond⟩

/-- C9 witness: the missed-calls preset applied from a dirty state and from a
fresh state yields the same applied filters. -/
theorem url_preset_idempotent_base_anchored_witness :
    (jsTruthyOptStr (some "missed") || jsTruthyOptStr none) = true ∧
    (urlPresetEffect (some saAdmin) (some "missed") none 20740 stSaDirty).filters =
      (urlPresetEffect (some saAdmin) (some "missed") none 20740 stSa).filters :=
  ⟨by decide,
   ((url_preset_idempotent_base_anchored (some saAdmin) (some "missed") none 20740 stSaDirty
     stSa).2 (by decide)).1⟩

/-- C2 auxiliary witness: the trainee role sees the App Users entry and an
authenticated session reaches the users page. -/
theorem users_view_open_to_all_roles_witness :
    navItemVisible (some "trainee") usersNavItem = true ∧
    usersRoute true = RouteRender.page :=
  ⟨users_view_open_to_all_roles.1 (some "trainee"),
   (users_view_open_to_all_roles.2.2 true).mpr rfl⟩

/-- C5 auxiliary witness: the concrete super_admin cannot delete itself. -/
theorem self_delete_forbidden_witness :
    handleDeleteAdmin (some saAdmin) saAdmin.id true = none ∧
    deleteButtonShown (some saAdmin) saAdmin = false :=
  self_delete_forbidden saAdmin true

/-- C10 auxiliary witness: a super_admin is offered the download control on
an answered incoming call with a recording. -/
theorem recording_controls_characterization_witness :
    (tableRecordingControls (some saAdmin) exampleIncomingRow).2 = true :=
  ((recording_controls_characterization (some saAdmin) exampleIncomingRow
      { call_type := "incoming", call_duration := 60, recordings := some [9] }).2.1).mpr
    ⟨by decide, by decide⟩
